import Mathlib

/-!
Verification of the boundary-restriction mixin and the material-property
container of the MOOSE framework fragment
(src/framework/src/base/BoundaryRestrictable.C and the MaterialProperty
header embedded in the same file).

Shallow embedding conventions:
* BoundaryID and SubdomainID are `Nat`.
* std::set is `Finset Nat`.
* Fatal `mooseError` calls during initialization become an `Except` error
  carrying the data printed in the message.
-/

set_option autoImplicit false

namespace Moose

/-- Modelled from the spec: the reserved "any boundary" sentinel id
(`Moose::ANY_BOUNDARY_ID`, declared in a framework header that is not part
of the visible source).  Its concrete value is irrelevant to the claims;
we use the unsigned -1 pattern. -/
def ANY_BOUNDARY_ID : Nat := 4294967295

/-- Modelled from the spec: the reserved "any block" sentinel id
(`Moose::ANY_BLOCK_ID`, declared in a framework header that is not part of
the visible source). -/
def ANY_BLOCK_ID : Nat := 4294967294

end Moose

/-- The slice of the mesh abstraction that `BoundaryRestrictable` consumes:
name-to-id resolution (`getBoundaryIDs`) and the set of boundary ids known
to the mesh (`meshBoundaryIds`). -/
structure MooseMesh where
  resolve : String → Nat
  meshBoundaryIds : Finset Nat

/-- `MooseMesh::getBoundaryIDs(names, true)`: resolve each boundary name to
an id. -/
def MooseMesh.getBoundaryIDs (mesh : MooseMesh) (names : List String) : List Nat :=
  names.map mesh.resolve

/-- The boundary-restriction state a `BoundaryRestrictable` object holds
after `initializeBoundaryRestrictable`: `_bnd_ids`, `_boundary_names`,
`_boundary_restricted`. -/
structure BndState where
  bnd_ids : Finset Nat
  boundary_names : List String
  boundary_restricted : Bool
deriving DecidableEq

/-- The fatal configuration errors `initializeBoundaryRestrictable` can
raise via `mooseError`, carrying the data interpolated into the message:
the object name, and for the missing-id error the offending ids
(`std::set_difference` prints them in ascending order; the model keeps the
set). -/
inductive InitError where
  | dualRestriction (name : String)
  | missingIds (name : String) (ids : Finset Nat)
deriving DecidableEq

instance : DecidableEq (Except InitError BndState) :=
  fun a b =>
    match a, b with
    | .ok a, .ok b => decidable_of_iff (a = b) (by simp)
    | .error a, .error b => decidable_of_iff (a = b) (by simp)
    | .ok _, .error _ => isFalse (by simp)
    | .error _, .ok _ => isFalse (by simp)

/-- Lines 84-88 of `initializeBoundaryRestrictable`: store the ids
resolved from the supplied names, handling ANY_BOUNDARY_ID if supplied. -/
def resolveBoundaryNames (mesh : MooseMesh) (names : List String) :
    Finset Nat :=
  if "ANY_BOUNDARY_ID" ∈ names then {Moose.ANY_BOUNDARY_ID}
  else (mesh.getBoundaryIDs names).toFinset

/-- `BoundaryRestrictable::initializeBoundaryRestrictable` (lines 61-122).
`boundary` is `none` when the "boundary" input parameter was not supplied
and `some names` when it was.  `block_ids` is `_block_ids` (the empty set
for the standard constructor), `dual_restrictable` is
`_bnd_dual_restrictable`.  The object starts with `_bnd_ids` empty and
`_boundary_restricted == false`. -/
def initializeBoundaryRestrictable (name : String) (mesh : MooseMesh)
    (dual_restrictable : Bool) (block_ids : Finset Nat)
    (boundary : Option (List String)) : Except InitError BndState :=
  -- lines 76-89: resolve the supplied names, handling ANY_BOUNDARY_ID
  let bnd_ids : Finset Nat :=
    match boundary with
    | none => ∅
    | some names => resolveBoundaryNames mesh names
  let bnames : List String :=
    match boundary with
    | none => []
    | some names => names
  -- lines 92-94: dual-restriction error
  if dual_restrictable = false ∧ bnd_ids ≠ ∅ ∧ block_ids ≠ ∅ ∧
      Moose.ANY_BLOCK_ID ∉ block_ids then
    .error (.dualRestriction name)
  else
    -- lines 97-103: store ANY_BOUNDARY_ID if empty, else mark restricted
    let st : BndState :=
      if bnd_ids = ∅ then ⟨{Moose.ANY_BOUNDARY_ID}, ["ANY_BOUNDARY_ID"], false⟩
      else ⟨bnd_ids, bnames, true⟩
    -- lines 106-121: concrete ids must exist on the mesh
    if Moose.ANY_BOUNDARY_ID ∉ st.bnd_ids then
      let diff := st.bnd_ids \ mesh.meshBoundaryIds
      if diff ≠ ∅ then .error (.missingIds name diff)
      else .ok st
    else .ok st

/-- The two set-test semantics of `BoundaryRestrictable::TEST_TYPE`. -/
inductive TEST_TYPE where
  | ALL
  | ANY
deriving DecidableEq, Repr

/-- `BoundaryRestrictable::hasBoundary(BoundaryID)` (lines 162-169),
reading the object's `_bnd_ids`. -/
def hasBoundaryId (bnd_ids : Finset Nat) (id : Nat) : Bool :=
  if bnd_ids = ∅ ∨ Moose.ANY_BOUNDARY_ID ∈ bnd_ids then true
  else decide (id ∈ bnd_ids)

/-- `BoundaryRestrictable::hasBoundary(std::set<BoundaryID>, TEST_TYPE)`
(lines 178-208). -/
def hasBoundarySet (bnd_ids : Finset Nat) (ids : Finset Nat)
    (type : TEST_TYPE) : Bool :=
  if ids = ∅ ∨ Moose.ANY_BOUNDARY_ID ∈ ids then true
  else match type with
    | .ALL =>
        if Moose.ANY_BOUNDARY_ID ∈ bnd_ids then true
        else decide (ids ⊆ bnd_ids)
    | .ANY => decide (∃ i ∈ ids, hasBoundaryId bnd_ids i = true)

/-- `BoundaryRestrictable::isBoundarySubset(std::set<BoundaryID>)`
(lines 210-221). -/
def isBoundarySubset (mesh : MooseMesh) (bnd_ids : Finset Nat)
    (ids : Finset Nat) : Bool :=
  if ids = ∅ ∨ Moose.ANY_BOUNDARY_ID ∈ ids then true
  else if Moose.ANY_BOUNDARY_ID ∈ bnd_ids then
    decide (mesh.meshBoundaryIds ⊆ ids)
  else decide (bnd_ids ⊆ ids)

/-- Concrete mesh used by witnesses and counterexamples: boundary names
"left"/"right" resolve to 2/4, every other name to 0; the mesh knows
boundary ids 1-4 (spec §8 example). -/
def mesh1 : MooseMesh :=
  ⟨fun n => if n = "left" then 2 else if n = "right" then 4 else 0,
   {1, 2, 3, 4}⟩

/-- `MaterialProperty<T>` (MaterialProperty header, lines 312-396): the
stored per-quadrature-point values `_value`, as a list; `size()` is the
list length. -/
structure MaterialProperty (T : Type) where
  value : List T

/-- Modelled from the spec: `materialPropertyStore<T>` (declared in the
included MaterialPropertyIO header, which is not part of the visible
source) writes one scalar value to the binary stream; the stream is the
list of values written so far, in order. -/
def materialPropertyStore {T : Type} (stream : List T) (v : T) : List T :=
  stream ++ [v]

/-- Modelled from the spec: `materialPropertyLoad<T>` reads one scalar
value at the stream's current read position and advances it; the
remaining stream is the tail. -/
def materialPropertyLoad {T : Type} [Inhabited T] (stream : List T) :
    T × List T :=
  (stream.headD default, stream.tail)

/-- `MaterialProperty<T>::store` (lines 430-436): write `_value[i]` to
the stream for each `i < size()` in order. -/
def MaterialProperty.store {T : Type} [Inhabited T]
    (p : MaterialProperty T) (stream : List T) : List T :=
  (List.range p.value.length).foldl
    (fun s i => materialPropertyStore s (p.value.getD i default)) stream

/-- `MaterialProperty<T>::load` (lines 438-444): read from the stream
into `_value[i]` for each `i < size()` in order; returns the updated
slot and the remaining stream. -/
def MaterialProperty.load {T : Type} [Inhabited T]
    (p : MaterialProperty T) (stream : List T) :
    MaterialProperty T × List T :=
  (List.range p.value.length).foldl
    (fun acc i =>
      (⟨acc.1.value.set i (materialPropertyLoad acc.2).1⟩,
        (materialPropertyLoad acc.2).2))
    (p, stream)

/-- Modelled from the spec: a property slot's underlying `MooseArray`
storage as a reference into a store of arrays (`MooseArray` itself is
not part of the visible source; per the spec, shallow copy "aliases the
underlying storage, not deep-copying").  A slot carries its type tag
(`type()`) and the reference to its storage. -/
structure PropertySlot where
  type_tag : String
  ref : Nat

/-- The storage state: which value array each reference designates. -/
def SlotStore (T : Type) := Nat → List T

/-- Mutating the array a reference designates. -/
def storeWrite {T : Type} (s : SlotStore T) (r : Nat) (v : List T) :
    SlotStore T :=
  fun r2 => if r2 = r then v else s r2

/-- Reading a slot's values through its reference. -/
def slotRead {T : Type} (s : SlotStore T) (p : PropertySlot) : List T :=
  s p.ref

/-- `MaterialProperty<T>::shallowCopy` (lines 422-428): the destination
takes over the source's underlying storage reference
(`_value.shallowCopy(...)`); the `libmesh_cast_ptr` cast performs no
type-tag check of its own, so nothing here compares the tags. -/
def PropertySlot.shallowCopy (dst rhs : PropertySlot) : PropertySlot :=
  { dst with ref := rhs.ref }

example :
    initializeBoundaryRestrictable "obj" mesh1 false ∅ (some ["left", "right"]) =
      .ok ⟨{2, 4}, ["left", "right"], true⟩ := by decide

example :
    initializeBoundaryRestrictable "obj" mesh1 false ∅ none =
      .ok ⟨{Moose.ANY_BOUNDARY_ID}, ["ANY_BOUNDARY_ID"], false⟩ := by decide

example :
    initializeBoundaryRestrictable "obj" mesh1 false {7} (some ["left"]) =
      .error (.dualRestriction "obj") := by decide

example :
    initializeBoundaryRestrictable "obj" mesh1 false ∅ (some ["left", "oops"]) =
      .error (.missingIds "obj" {0}) := by decide

example : hasBoundaryId {2, 4} 2 = true := by decide
example : hasBoundaryId {2, 4} 9 = false := by decide
example : isBoundarySubset mesh1 {2, 4} {1, 2, 3, 4} = true := by decide

/-- Any non-empty supplied boundary-name list resolves to a non-empty
boundary id set (a singleton sentinel, or the ids of the names). -/
theorem resolveBoundaryNames_ne_empty (mesh : MooseMesh)
    (names : List String) (h : names ≠ []) :
    resolveBoundaryNames mesh names ≠ ∅ := by
  unfold resolveBoundaryNames
  split
  · exact Finset.singleton_ne_empty _
  · simp [MooseMesh.getBoundaryIDs, List.toFinset_eq_empty_iff, h]

/-- C1 (amended part): with the dual-restriction flag unset, a supplied
(non-empty) boundary-name list and a non-empty block set without the
any-block sentinel, initialization fails with the dual-restriction
error. -/
theorem dual_restriction_error (name : String) (mesh : MooseMesh)
    (block_ids : Finset Nat) (names : List String)
    (h1 : names ≠ []) (h2 : block_ids ≠ ∅)
    (h3 : Moose.ANY_BLOCK_ID ∉ block_ids) :
    initializeBoundaryRestrictable name mesh false block_ids (some names) =
      .error (.dualRestriction name) := by
  simp only [initializeBoundaryRestrictable]
  exact if_pos
    ⟨by trivial, resolveBoundaryNames_ne_empty mesh names h1, h2, h3⟩

/-- C1 counterexample: the failure does NOT occur "only when the boundary
set is itself not any": explicitly supplying the reserved name
"ANY_BOUNDARY_ID" resolves to the any-sentinel singleton (second
conjunct, with the flag set so initialization succeeds and we can see the
resolved set), yet the same input with the flag unset and a concrete
block restriction still raises the dual-restriction error (first
conjunct). -/
theorem dual_restriction_fires_on_sentinel :
    initializeBoundaryRestrictable "obj" mesh1 false {7} (some ["ANY_BOUNDARY_ID"]) =
      .error (.dualRestriction "obj") ∧
    initializeBoundaryRestrictable "obj" mesh1 true {7} (some ["ANY_BOUNDARY_ID"]) =
      .ok ⟨{Moose.ANY_BOUNDARY_ID}, ["ANY_BOUNDARY_ID"], true⟩ ∧
    Moose.ANY_BLOCK_ID ∉ ({7} : Finset Nat) := by decide

/-- C1 witness: concrete instance of the dual-restriction failure. -/
theorem dual_restriction_error_witness :
    initializeBoundaryRestrictable "obj" mesh1 false {7} (some ["left"]) =
      .error (.dualRestriction "obj") :=
  dual_restriction_error "obj" mesh1 {7} ["left"] (by decide) (by decide)
    (by decide)

/-- C2: if the supplied boundary-name list contains "ANY_BOUNDARY_ID",
any successful initialization leaves the restriction set equal to the
any-sentinel singleton, whatever other names are present. -/
theorem any_name_gives_sentinel_set (name : String) (mesh : MooseMesh)
    (dual : Bool) (block_ids : Finset Nat) (names : List String)
    (st : BndState) (hany : "ANY_BOUNDARY_ID" ∈ names)
    (hok : initializeBoundaryRestrictable name mesh dual block_ids
      (some names) = .ok st) :
    st.bnd_ids = {Moose.ANY_BOUNDARY_ID} := by
  simp only [initializeBoundaryRestrictable, resolveBoundaryNames, hany,
    if_true] at hok
  split at hok
  · simp at hok
  · rw [if_neg (Finset.singleton_ne_empty _)] at hok
    rw [if_neg (by simp)] at hok
    cases hok
    rfl

/-- C3: an absent ("boundary" parameter not supplied) or empty
boundary-name input initializes the restriction set to exactly the
any-sentinel singleton with the object left unrestricted, and after any
successful initialization the boundary-id set is non-empty. -/
theorem empty_input_gives_any_unrestricted :
    (∀ (name : String) (mesh : MooseMesh) (dual : Bool)
       (block_ids : Finset Nat),
       initializeBoundaryRestrictable name mesh dual block_ids none =
         .ok ⟨{Moose.ANY_BOUNDARY_ID}, ["ANY_BOUNDARY_ID"], false⟩) ∧
    (∀ (name : String) (mesh : MooseMesh) (dual : Bool)
       (block_ids : Finset Nat),
       initializeBoundaryRestrictable name mesh dual block_ids (some []) =
         .ok ⟨{Moose.ANY_BOUNDARY_ID}, ["ANY_BOUNDARY_ID"], false⟩) ∧
    (∀ (name : String) (mesh : MooseMesh) (dual : Bool)
       (block_ids : Finset Nat) (boundary : Option (List String))
       (st : BndState),
       initializeBoundaryRestrictable name mesh dual block_ids boundary =
         .ok st → st.bnd_ids ≠ ∅) := by
  refine ⟨fun name mesh dual block_ids => ?_,
    fun name mesh dual block_ids => ?_,
    fun name mesh dual block_ids boundary st h => ?_⟩
  · simp [initializeBoundaryRestrictable]
  · simp [initializeBoundaryRestrictable, resolveBoundaryNames,
      MooseMesh.getBoundaryIDs]
  · cases boundary <;> simp only [initializeBoundaryRestrictable] at h <;>
      (repeat' split at h) <;>
      first
        | (cases h;
           simp_all [Finset.singleton_ne_empty, List.toFinset_eq_empty_iff,
             MooseMesh.getBoundaryIDs])
        | simp_all [Finset.singleton_ne_empty]

/-- C3 witness: instance of the invariant at a concrete run. -/
theorem empty_input_gives_any_unrestricted_witness :
    (⟨{Moose.ANY_BOUNDARY_ID}, ["ANY_BOUNDARY_ID"], false⟩ :
      BndState).bnd_ids ≠ ∅ :=
  empty_input_gives_any_unrestricted.2.2 "obj" mesh1 false ∅ none
    ⟨{Moose.ANY_BOUNDARY_ID}, ["ANY_BOUNDARY_ID"], false⟩ (by decide)

/-- C10: naming the sentinel explicitly and omitting the parameter both
produce the any-sentinel restriction set, but are distinguishable through
the boundary-restricted flag: the explicit sentinel leaves the object
marked restricted, the absent input leaves it unrestricted. -/
theorem explicit_sentinel_sets_restricted_flag :
    (∀ (name : String) (mesh : MooseMesh) (dual : Bool)
       (block_ids : Finset Nat) (st : BndState),
       initializeBoundaryRestrictable name mesh dual block_ids
         (some ["ANY_BOUNDARY_ID"]) = .ok st →
       st.bnd_ids = {Moose.ANY_BOUNDARY_ID} ∧
         st.boundary_restricted = true) ∧
    (∀ (name : String) (mesh : MooseMesh) (dual : Bool)
       (block_ids : Finset Nat) (st : BndState),
       initializeBoundaryRestrictable name mesh dual block_ids none =
         .ok st →
       st.bnd_ids = {Moose.ANY_BOUNDARY_ID} ∧
         st.boundary_restricted = false) := by
  constructor
  · intro name mesh dual block_ids st h
    simp only [initializeBoundaryRestrictable] at h
    (repeat' split at h) <;>
      first
        | (cases h; simp_all [resolveBoundaryNames, Finset.singleton_ne_empty])
        | simp_all [resolveBoundaryNames, Finset.singleton_ne_empty]
  · intro name mesh dual block_ids st h
    simp only [initializeBoundaryRestrictable] at h
    (repeat' split at h) <;>
      first
        | (cases h; simp_all [resolveBoundaryNames, Finset.singleton_ne_empty])
        | simp_all [resolveBoundaryNames, Finset.singleton_ne_empty]

/-- C10 witness: both branches applied to concrete successful runs. -/
theorem explicit_sentinel_sets_restricted_flag_witness :
    ((⟨{Moose.ANY_BOUNDARY_ID}, ["ANY_BOUNDARY_ID"], true⟩ :
        BndState).bnd_ids = {Moose.ANY_BOUNDARY_ID} ∧
      (⟨{Moose.ANY_BOUNDARY_ID}, ["ANY_BOUNDARY_ID"], true⟩ :
        BndState).boundary_restricted = true) ∧
    ((⟨{Moose.ANY_BOUNDARY_ID}, ["ANY_BOUNDARY_ID"], false⟩ :
        BndState).bnd_ids = {Moose.ANY_BOUNDARY_ID} ∧
      (⟨{Moose.ANY_BOUNDARY_ID}, ["ANY_BOUNDARY_ID"], false⟩ :
        BndState).boundary_restricted = false) :=
  ⟨explicit_sentinel_sets_restricted_flag.1 "obj" mesh1 false ∅
      ⟨{Moose.ANY_BOUNDARY_ID}, ["ANY_BOUNDARY_ID"], true⟩ (by decide),
    explicit_sentinel_sets_restricted_flag.2 "obj" mesh1 false ∅
      ⟨{Moose.ANY_BOUNDARY_ID}, ["ANY_BOUNDARY_ID"], false⟩ (by decide)⟩

/-- C4: for a supplied concrete (non-any) boundary name list, when the
dual-restriction check passes, initialization fails exactly when some
resolved id is absent from the mesh's known boundary ids, with the error
carrying exactly the set difference (resolved ids minus known ids), and
succeeds otherwise. -/
theorem missing_mesh_ids_check (name : String) (mesh : MooseMesh)
    (dual : Bool) (block_ids : Finset Nat) (names : List String)
    (h1 : names ≠ []) (h2 : "ANY_BOUNDARY_ID" ∉ names)
    (h3 : Moose.ANY_BOUNDARY_ID ∉ (mesh.getBoundaryIDs names).toFinset)
    (h4 : ¬(dual = false ∧ block_ids ≠ ∅ ∧
      Moose.ANY_BLOCK_ID ∉ block_ids)) :
    ((mesh.getBoundaryIDs names).toFinset \ mesh.meshBoundaryIds ≠ ∅ →
       ∃ ds, initializeBoundaryRestrictable name mesh dual block_ids
           (some names) = .error (.missingIds name ds) ∧
         ∀ x, x ∈ ds ↔
           x ∈ (mesh.getBoundaryIDs names).toFinset ∧
             x ∉ mesh.meshBoundaryIds) ∧
    ((mesh.getBoundaryIDs names).toFinset \ mesh.meshBoundaryIds = ∅ →
       initializeBoundaryRestrictable name mesh dual block_ids
           (some names) =
         .ok ⟨(mesh.getBoundaryIDs names).toFinset, names, true⟩) := by
  have hres : resolveBoundaryNames mesh names =
      (mesh.getBoundaryIDs names).toFinset := by
    unfold resolveBoundaryNames
    exact if_neg h2
  have hne : (mesh.getBoundaryIDs names).toFinset ≠ ∅ := by
    simp [MooseMesh.getBoundaryIDs, List.toFinset_eq_empty_iff, h1]
  have hmain : initializeBoundaryRestrictable name mesh dual block_ids
      (some names) =
      if (mesh.getBoundaryIDs names).toFinset \ mesh.meshBoundaryIds ≠ ∅
      then .error (.missingIds name
        ((mesh.getBoundaryIDs names).toFinset \ mesh.meshBoundaryIds))
      else .ok ⟨(mesh.getBoundaryIDs names).toFinset, names, true⟩ := by
    simp only [initializeBoundaryRestrictable, hres]
    rw [if_neg (fun hc => h4 ⟨hc.1, hc.2.2.1, hc.2.2.2⟩)]
    rw [if_neg hne]
    rw [if_pos h3]
  constructor
  · intro hmiss
    refine ⟨(mesh.getBoundaryIDs names).toFinset \ mesh.meshBoundaryIds,
      ?_, ?_⟩
    · rw [hmain, if_pos hmiss]
    · intro x
      exact Finset.mem_sdiff
  · intro hempty
    rw [hmain, if_neg (fun hc => hc hempty)]

/-- C4 witness: on `mesh1` (known ids 1-4), the names ["left", "oops"]
resolve to {2, 0} and initialization fails reporting exactly {0}; the
names ["left", "right"] resolve to {2, 4} and initialization succeeds. -/
theorem missing_mesh_ids_check_witness :
    (∃ ds, initializeBoundaryRestrictable "obj" mesh1 false ∅
        (some ["left", "oops"]) = .error (.missingIds "obj" ds) ∧
      ∀ x, x ∈ ds ↔
        x ∈ (mesh1.getBoundaryIDs ["left", "oops"]).toFinset ∧
          x ∉ mesh1.meshBoundaryIds) ∧
    initializeBoundaryRestrictable "obj" mesh1 false ∅
        (some ["left", "right"]) =
      .ok ⟨(mesh1.getBoundaryIDs ["left", "right"]).toFinset,
        ["left", "right"], true⟩ :=
  ⟨(missing_mesh_ids_check "obj" mesh1 false ∅ ["left", "oops"]
      (by decide) (by decide) (by decide) (by decide)).1 (by decide),
   (missing_mesh_ids_check "obj" mesh1 false ∅ ["left", "right"]
      (by decide) (by decide) (by decide) (by decide)).2 (by decide)⟩

/-- C2 witness. -/
theorem any_name_gives_sentinel_set_witness :
    (⟨{Moose.ANY_BOUNDARY_ID}, ["left", "ANY_BOUNDARY_ID"], true⟩ :
      BndState).bnd_ids = {Moose.ANY_BOUNDARY_ID} :=
  any_name_gives_sentinel_set "obj" mesh1 false ∅ ["left", "ANY_BOUNDARY_ID"]
    ⟨{Moose.ANY_BOUNDARY_ID}, ["left", "ANY_BOUNDARY_ID"], true⟩
    (by decide) (by decide)

/-- C5 (amended): the any-sentinel on the object side always matches
(both overloads), and the any-sentinel inside a queried set always
matches; but a single queried sentinel id against a concrete non-empty
restriction set falls through to plain membership. -/
theorem sentinel_membership_semantics (bnd_ids ids : Finset Nat)
    (id : Nat) (t : TEST_TYPE) :
    (Moose.ANY_BOUNDARY_ID ∈ bnd_ids →
       hasBoundaryId bnd_ids id = true ∧
       hasBoundarySet bnd_ids ids t = true) ∧
    (Moose.ANY_BOUNDARY_ID ∈ ids → hasBoundarySet bnd_ids ids t = true) ∧
    (Moose.ANY_BOUNDARY_ID ∉ bnd_ids → bnd_ids ≠ ∅ →
       hasBoundaryId bnd_ids Moose.ANY_BOUNDARY_ID = false) := by
  refine ⟨fun h => ⟨?_, ?_⟩, fun h => ?_, fun h hne => ?_⟩
  · simp [hasBoundaryId, h]
  · unfold hasBoundarySet
    split
    · rfl
    · rename_i hcond
      push_neg at hcond
      cases t
      · simp [h]
      · simp only [decide_eq_true_eq]
        obtain ⟨i, hi⟩ := Finset.nonempty_iff_ne_empty.mpr hcond.1
        exact ⟨i, hi, by simp [hasBoundaryId, h]⟩
  · unfold hasBoundarySet
    rw [if_pos (Or.inr h)]
  · simp [hasBoundaryId, h, hne]

/-- C5 counterexample: after a successful initialization with the
concrete restriction set {2, 4}, querying the single any-sentinel id
returns false, refuting "the any-sentinel on either side of the
comparison always returns true" for the single-id overload. -/
theorem sentinel_query_fails_on_concrete_set :
    initializeBoundaryRestrictable "obj" mesh1 false ∅
        (some ["left", "right"]) =
      .ok ⟨{2, 4}, ["left", "right"], true⟩ ∧
    hasBoundaryId {2, 4} Moose.ANY_BOUNDARY_ID = false := by decide

/-- C5 witness: the two provable sides instantiated concretely. -/
theorem sentinel_membership_semantics_witness :
    hasBoundaryId {Moose.ANY_BOUNDARY_ID} 5 = true ∧
    hasBoundaryId {2, 4} Moose.ANY_BOUNDARY_ID = false :=
  ⟨((sentinel_membership_semantics {Moose.ANY_BOUNDARY_ID} ∅ 5 .ALL).1
      (by decide)).1,
   (sentinel_membership_semantics {2, 4} ∅ 5 .ALL).2.2
      (by decide) (by decide)⟩

/-- C6 counterexample: the ALL-mode test on the concrete restriction set
{2} with queried set {any-sentinel} returns true although not every
queried id is in the restriction set and the object is not
any-restricted, refuting the stated iff. -/
theorem all_mode_iff_fails_on_sentinel_query :
    hasBoundarySet {2} {Moose.ANY_BOUNDARY_ID} .ALL = true ∧
    ¬(({Moose.ANY_BOUNDARY_ID} : Finset Nat) ⊆ {2}) ∧
    Moose.ANY_BOUNDARY_ID ∉ ({2} : Finset Nat) := by decide

/-- C6 (amended): for queried sets that are empty or contain the
any-sentinel the test returns true in either mode; otherwise (on an
initialized, hence non-empty, restriction set) ALL mode is containment
of the queried set or any-restriction, and ANY mode is a single match or
any-restriction. -/
theorem set_test_semantics (bnd_ids ids : Finset Nat) :
    (∀ t, ids = ∅ ∨ Moose.ANY_BOUNDARY_ID ∈ ids →
       hasBoundarySet bnd_ids ids t = true) ∧
    (ids ≠ ∅ → Moose.ANY_BOUNDARY_ID ∉ ids → bnd_ids ≠ ∅ →
       ((hasBoundarySet bnd_ids ids .ALL = true ↔
           Moose.ANY_BOUNDARY_ID ∈ bnd_ids ∨ ids ⊆ bnd_ids) ∧
        (hasBoundarySet bnd_ids ids .ANY = true ↔
           Moose.ANY_BOUNDARY_ID ∈ bnd_ids ∨ ∃ i ∈ ids, i ∈ bnd_ids))) := by
  constructor
  · intro t h
    unfold hasBoundarySet
    rw [if_pos h]
  · intro hne hany hbne
    have hcond : ¬(ids = ∅ ∨ Moose.ANY_BOUNDARY_ID ∈ ids) := by
      rintro (h | h)
      · exact hne h
      · exact hany h
    constructor
    · unfold hasBoundarySet
      rw [if_neg hcond]
      by_cases hb : Moose.ANY_BOUNDARY_ID ∈ bnd_ids
      · simp [hb]
      · simp [hb]
    · unfold hasBoundarySet
      rw [if_neg hcond]
      by_cases hb : Moose.ANY_BOUNDARY_ID ∈ bnd_ids
      · simp only [decide_eq_true_eq]
        obtain ⟨i, hi⟩ := Finset.nonempty_iff_ne_empty.mpr hne
        exact iff_of_true ⟨i, hi, by simp [hasBoundaryId, hb]⟩ (Or.inl hb)
      · simp [hasBoundaryId, hb, hbne]

/-- C6 witness: both modes applied at concrete inputs. -/
theorem set_test_semantics_witness :
    hasBoundarySet {2, 4} {2} .ALL = true ∧
    hasBoundarySet {2, 4} {3, 4} .ANY = true :=
  ⟨((set_test_semantics {2, 4} {2}).2 (by decide) (by decide)
      (by decide)).1.mpr (Or.inr (by decide)),
   ((set_test_semantics {2, 4} {3, 4}).2 (by decide) (by decide)
      (by decide)).2.mpr (Or.inr ⟨4, by decide, by decide⟩)⟩

/-- C9: isBoundarySubset returns true on an empty or sentinel-containing
input; against a concrete restriction set it is the superset test of the
restriction set; against an any-restricted object it is the superset
test of the mesh's entire known-boundary set. -/
theorem isBoundarySubset_semantics (mesh : MooseMesh)
    (bnd_ids ids : Finset Nat) :
    (ids = ∅ ∨ Moose.ANY_BOUNDARY_ID ∈ ids →
       isBoundarySubset mesh bnd_ids ids = true) ∧
    (ids ≠ ∅ → Moose.ANY_BOUNDARY_ID ∉ ids →
       Moose.ANY_BOUNDARY_ID ∉ bnd_ids →
       (isBoundarySubset mesh bnd_ids ids = true ↔ bnd_ids ⊆ ids)) ∧
    (ids ≠ ∅ → Moose.ANY_BOUNDARY_ID ∉ ids →
       Moose.ANY_BOUNDARY_ID ∈ bnd_ids →
       (isBoundarySubset mesh bnd_ids ids = true ↔
          mesh.meshBoundaryIds ⊆ ids)) := by
  refine ⟨fun h => ?_, fun hne hany hb => ?_, fun hne hany hb => ?_⟩
  · unfold isBoundarySubset
    rw [if_pos h]
  · have hcond : ¬(ids = ∅ ∨ Moose.ANY_BOUNDARY_ID ∈ ids) := by
      rintro (h | h)
      · exact hne h
      · exact hany h
    unfold isBoundarySubset
    rw [if_neg hcond, if_neg hb]
    simp
  · have hcond : ¬(ids = ∅ ∨ Moose.ANY_BOUNDARY_ID ∈ ids) := by
      rintro (h | h)
      · exact hne h
      · exact hany h
    unfold isBoundarySubset
    rw [if_neg hcond, if_pos hb]
    simp

/-- C9 witness: the spec §8 example, restriction {2, 4} against the full
known-id set of `mesh1`. -/
theorem isBoundarySubset_semantics_witness :
    isBoundarySubset mesh1 {2, 4} {1, 2, 3, 4} = true :=
  ((isBoundarySubset_semantics mesh1 {2, 4} {1, 2, 3, 4}).2.1
    (by decide) (by decide) (by decide)).mpr (by decide)

/-- The store loop writes exactly the first `n` values, in order. -/
theorem store_loop_eq {T : Type} [Inhabited T] (l s0 : List T) (n : Nat)
    (hn : n ≤ l.length) :
    (List.range n).foldl
      (fun s i => materialPropertyStore s (l.getD i default)) s0 =
    s0 ++ l.take n := by
  induction n with
  | zero => simp
  | succ k ih =>
    rw [List.range_succ, List.foldl_append, ih (Nat.le_of_succ_le hn)]
    have hk : k < l.length := hn
    simp only [List.foldl_cons, List.foldl_nil, materialPropertyStore]
    rw [List.getD_eq_getElem l default hk]
    rw [List.take_succ, List.getElem?_eq_getElem hk, Option.toList_some]
    rw [List.append_assoc]

/-- The load loop overwrites the first `n` slots with the first `n`
stream values and drops them from the stream. -/
theorem load_loop_eq {T : Type} [Inhabited T] (p : MaterialProperty T)
    (s0 : List T) (n : Nat) (hv : n ≤ p.value.length)
    (hs : n ≤ s0.length) :
    (List.range n).foldl
      (fun (acc : MaterialProperty T × List T) i =>
        (⟨acc.1.value.set i (materialPropertyLoad acc.2).1⟩,
          (materialPropertyLoad acc.2).2))
      (p, s0) =
    (⟨s0.take n ++ p.value.drop n⟩, s0.drop n) := by
  induction n with
  | zero => simp
  | succ k ih =>
    rw [List.range_succ, List.foldl_append,
      ih (Nat.le_of_succ_le hv) (Nat.le_of_succ_le hs)]
    have hks : k < s0.length := hs
    have hkv : k < p.value.length := hv
    have htk : (List.take k s0).length = k := by
      rw [List.length_take]
      exact Nat.min_eq_left hks.le
    simp only [List.foldl_cons, List.foldl_nil, materialPropertyLoad,
      List.headD_eq_head?, List.head?_drop, List.tail_drop]
    rw [List.getElem?_eq_getElem hks, Option.getD_some]
    rw [List.drop_eq_getElem_cons hkv, List.set_append]
    rw [if_neg (by rw [htk]; exact Nat.lt_irrefl k)]
    rw [htk, Nat.sub_self, List.set_cons_zero]
    rw [List.take_succ, List.getElem?_eq_getElem hks, Option.toList_some]
    rw [List.append_assoc, List.singleton_append]

/-- C7: storing a slot of scalar values to a fresh binary stream and
loading that stream back into a slot of the same size reproduces the
original values exactly, in order. -/
theorem store_load_roundtrip {T : Type} [Inhabited T]
    (src dst : MaterialProperty T)
    (h : dst.value.length = src.value.length) :
    ((dst.load (src.store [])).1).value = src.value := by
  have hstore : src.store [] = src.value := by
    have := store_loop_eq src.value ([] : List T) src.value.length le_rfl
    simpa [MaterialProperty.store] using this
  simp only [MaterialProperty.load]
  rw [load_loop_eq dst (src.store []) dst.value.length le_rfl
    (by rw [hstore, h])]
  rw [hstore]
  simp [h, List.take_of_length_le, List.drop_eq_nil_of_le]

/-- C7 witness: a concrete three-value integer slot survives the
round trip. -/
theorem store_load_roundtrip_witness :
    ((MaterialProperty.load ⟨[0, 0, 0]⟩
        (MaterialProperty.store (⟨[3, -1, 7]⟩ : MaterialProperty Int)
          [])).1).value = [3, -1, 7] :=
  store_load_roundtrip ⟨[3, -1, 7]⟩ ⟨[0, 0, 0]⟩ (by decide)

/-- C8: shallowCopy aliases the source's storage, so any later mutation
of the source's array is observable through the destination; and the
operation performs no type-tag guard (it acts identically for matching
and mismatched tags), leaving mismatches to the caller. -/
theorem shallowCopy_aliases {T : Type} (dst src : PropertySlot)
    (s : SlotStore T) (v : List T) :
    (PropertySlot.shallowCopy dst src).ref = src.ref ∧
    slotRead (storeWrite s src.ref v) (PropertySlot.shallowCopy dst src) =
      v ∧
    PropertySlot.shallowCopy dst src = ⟨dst.type_tag, src.ref⟩ := by
  refine ⟨rfl, ?_, rfl⟩
  simp [slotRead, storeWrite, PropertySlot.shallowCopy]
